import Mathlib

/-!
Shallow embedding of `src/server.cjs` from FiretailHosting/new-release-downloader.

The program is a single Express server: a webhook POST route guarded by a
GitHub signature-verification middleware, followed by a handler that runs an
optional pre-script, acquires an installation token, fetches the latest
release, selects an asset by exact name, downloads it, streams it to disk,
runs an optional post-script, and replies.

External collaborators (Octokit, fetch, the filesystem, child processes) are
modelled by an `Env` record holding the value each awaited call returns in
the run being considered.  The Node library functions `crypto.timingSafeEqual`,
`Buffer.from` and `path.join` are modelled from their documented behavior.
Strings are compared at the level of their character sequences; every string
the verifier compares (hex digests and their `algorithm=` prefixes, signature
headers) is ASCII in the scenarios considered, where byte-level and
character-level equality and length coincide.
-/

namespace NewReleaseDownloader

/-- JavaScript truthiness for an optional string value, as used by
`if (!secret)`, `if (!signature)`, `if (preScript)` in the source:
`undefined` and the empty string are falsy. -/
def jsFalsyStr : Option String → Bool
  | none => true
  | some s => s == ""

/-- The two HMAC algorithm names the middleware can pass to
`crypto.createHmac` (`'sha256'` and `'sha1'`, `src/server.cjs` lines 60-63). -/
inductive HmacAlgorithm where
  | sha256
  | sha1
deriving DecidableEq

/-- The algorithm name string used both for `crypto.createHmac` and as the
digest prefix `algorithm + '='` (`src/server.cjs` line 73). -/
def algName : HmacAlgorithm → String
  | HmacAlgorithm.sha256 => "sha256"
  | HmacAlgorithm.sha1 => "sha1"

/-- Models `Buffer.from(s)` at the level of the character sequence of `s`
(for the ASCII strings compared by the verifier, UTF-8 byte equality and
byte length coincide with character equality and length). -/
def bufFrom (s : String) : List Char := s.data

/-- Models Node `crypto.timingSafeEqual(a, b)`: it throws a `RangeError`
when the two buffers have different byte lengths, and otherwise returns
whether they are equal (in constant time). -/
def timingSafeEqual (a b : List Char) : Except String Bool :=
  if a.length = b.length then Except.ok (a == b)
  else Except.error "RangeError: Input buffers must have the same byte length"

/-- The parts of the inbound webhook request the middleware reads: the raw
body bytes captured by the `express.json` verify callback, and the two
signature headers. -/
structure WebhookRequest where
  rawBody : List Nat
  sigHeader256 : Option String
  sigHeader1 : Option String
deriving DecidableEq

/-- Header selection of `verifyGithubSignature` (`src/server.cjs` lines
58-64): the SHA-256 header is tried first, with fallback to the legacy
SHA-1 header when the strong one is absent (or empty, hence falsy). -/
def selectSignature (req : WebhookRequest) : Option String × HmacAlgorithm :=
  if jsFalsyStr req.sigHeader256 then (req.sigHeader1, HmacAlgorithm.sha1)
  else (req.sigHeader256, HmacAlgorithm.sha256)

/-- The digest string the middleware compares against:
`algorithm + '=' + hmac.digest('hex')` (`src/server.cjs` lines 71-73).
The HMAC computation itself is the external `crypto` library, passed in as
the function `hmacHex`. -/
def computedDigest (hmacHex : HmacAlgorithm → String → List Nat → String)
    (alg : HmacAlgorithm) (secret : String) (body : List Nat) : String :=
  algName alg ++ "=" ++ hmacHex alg secret body

/-- The observable outcomes of the `verifyGithubSignature` middleware
(`src/server.cjs` lines 51-83): a 500 configuration-error reply when the
secret is missing, a 401 reply when no signature header is present, a 401
reply when `timingSafeEqual` returns false, an uncaught synchronous
exception when `timingSafeEqual` throws (unequal buffer lengths), or
`next()` handing over to the route handler. -/
inductive VerifyOutcome where
  | serverConfigError
  | unauthorizedMissing
  | unauthorizedInvalid
  | comparisonException
  | verified
deriving DecidableEq

/-- Embedding of the `verifyGithubSignature` middleware
(`src/server.cjs` lines 51-83). -/
def verifyGithubSignature (hmacHex : HmacAlgorithm → String → List Nat → String)
    (secret : Option String) (req : WebhookRequest) : VerifyOutcome :=
  if jsFalsyStr secret then VerifyOutcome.serverConfigError
  else
    let sel := selectSignature req
    if jsFalsyStr sel.1 then VerifyOutcome.unauthorizedMissing
    else
      let signature := sel.1.getD ""
      let digest := computedDigest hmacHex sel.2 (secret.getD "") req.rawBody
      match timingSafeEqual (bufFrom signature) (bufFrom digest) with
      | Except.error _ => VerifyOutcome.comparisonException
      | Except.ok b =>
        if b then VerifyOutcome.verified else VerifyOutcome.unauthorizedInvalid

/-- A release asset as used by the handler: its `name` (matched against
`ASSET_NAME`) and its `id` (used to build the download URL). -/
structure Asset where
  name : String
  id : Nat
deriving DecidableEq

/-- The latest release returned by `octokit.repos.getLatestRelease`: the
handler only reads its `assets` array. -/
structure Release where
  assets : List Asset
deriving DecidableEq

/-- The fields of the `fetch` response the handler reads: `status`,
`statusText` and the error body text obtained by `response.text()`. -/
structure FetchResponse where
  status : Nat
  statusText : String
  bodyText : String
deriving DecidableEq

/-- Models the WHATWG `Response.ok` getter: status in the range 200-299. -/
def FetchResponse.ok (r : FetchResponse) : Bool :=
  200 ≤ r.status && r.status < 300

/-- The configuration the request-handling code reads, loaded once from the
environment (`src/server.cjs` lines 52 and 86-95).  `GITHUB_APP_ID`,
`GITHUB_INSTALLATION_ID` and the private key only parameterize the external
Octokit client and are absorbed into `Env`. -/
structure Config where
  owner : String
  repo : String
  downloadFolder : String
  assetName : String
  outputFileName : String
  webhookSecret : Option String
  preScript : Option String
  postScript : Option String
deriving DecidableEq

/-- The values the external collaborators return in one handler run: the
installation token from `octokit.auth`, the latest release, the asset
`fetch` response, whether the stream-to-disk pipe fails (and the error
message if so), and whether the configured pre/post script runs succeed. -/
structure Env where
  installationToken : Option String
  latestRelease : Release
  fetchResponse : FetchResponse
  streamError : Option String
  preScriptOk : Bool
  postScriptOk : Bool
deriving DecidableEq

/-- The observable side effects of one handler run, in order: invoking the
pre-script, calling `octokit.auth`, calling `getLatestRelease`, issuing the
asset-download `fetch` (with its URL), opening and piping into the output
file (with its path), and invoking the post-script. -/
inductive Event where
  | ranPreScript
  | acquiredToken
  | fetchedRelease
  | fetchedAsset (url : String)
  | wroteFile (filePath : String)
  | ranPostScript
deriving DecidableEq

/-- True for the asset-download network request event. -/
def Event.isAssetFetch : Event → Bool
  | Event.fetchedAsset _ => true
  | _ => false

/-- True for the output-file write event. -/
def Event.isFileWrite : Event → Bool
  | Event.wroteFile _ => true
  | _ => false

/-- True for the download-step events: token acquisition, release lookup,
asset fetch, file write. -/
def Event.isDownloadStep : Event → Bool
  | Event.acquiredToken => true
  | Event.fetchedRelease => true
  | Event.fetchedAsset _ => true
  | Event.wroteFile _ => true
  | _ => false

/-- The distinct failures thrown inside the handler's `try` block.  The
source throws untyped `Error` values distinguished only by their message
strings; each constructor labels one throw site (with the spec's taxonomy
name) and carries exactly the data that throw site puts into the message. -/
inductive PipelineError where
  | authError
  | releaseNotFoundError
  | assetNotFoundError (assetName : String)
  | downloadHttpError (statusText : String)
  | ioError (message : String)
deriving DecidableEq

/-- The exact `error.message` string of each throw site
(`src/server.cjs` lines 144, 153, 157, 176, and the propagated stream
error). -/
def PipelineError.message : PipelineError → String
  | PipelineError.authError => "Installation token not received."
  | PipelineError.releaseNotFoundError => "No assets attached to the latest release."
  | PipelineError.assetNotFoundError n =>
      "Asset named \"" ++ n ++ "\" not found in the release assets."
  | PipelineError.downloadHttpError st =>
      "Failed to download release asset: " ++ st
  | PipelineError.ioError m => m

/-- Models Node `path.join` for the two-segment use at
`src/server.cjs` line 183 (no dot-segment normalization, which the claims
do not depend on). -/
def pathJoin (a b : String) : String :=
  if a.data.getLast? = some '/' then a ++ b else a ++ "/" ++ b

/-- The asset download URL built at `src/server.cjs` line 162. -/
def assetApiUrl (owner repo : String) (assetId : Nat) : String :=
  "https://api.github.com/repos/" ++ owner ++ "/" ++ repo ++
    "/releases/assets/" ++ toString assetId

/-- The rejection message produced by `runScript`
(`src/server.cjs` line 19). -/
def runScriptFailMessage (scriptPath : String) : String :=
  "Script execution failed for \"" ++ scriptPath ++ "\". Check the script and permissions."

/-- An HTTP reply: status code and body text. -/
structure HttpReply where
  status : Nat
  body : String
deriving DecidableEq

/-- The download pipeline inside the handler's `try` block, from token
acquisition to the completed file write (`src/server.cjs` lines 140-199):
get an installation token (throw if falsy), fetch the latest release
(throw if its asset list is empty), select the asset whose name strictly
equals `ASSET_NAME` (throw if none), `fetch` the asset URL (throw with the
`statusText` if the response is not ok), then pipe the body into the output
file (the stream error propagates if the pipe fails).  Returns the output
file path on success, paired with the side effects performed. -/
def runPipeline (cfg : Config) (env : Env) :
    Except PipelineError String × List Event :=
  let ev := [Event.acquiredToken]
  if jsFalsyStr env.installationToken then
    (Except.error PipelineError.authError, ev)
  else
    let ev := ev ++ [Event.fetchedRelease]
    let release := env.latestRelease
    if ¬ release.assets.length > 0 then
      (Except.error PipelineError.releaseNotFoundError, ev)
    else
      match release.assets.find? (fun asset => asset.name == cfg.assetName) with
      | none => (Except.error (PipelineError.assetNotFoundError cfg.assetName), ev)
      | some matchingAsset =>
        let url := assetApiUrl cfg.owner cfg.repo matchingAsset.id
        let ev := ev ++ [Event.fetchedAsset url]
        let response := env.fetchResponse
        if ¬ response.ok then
          (Except.error (PipelineError.downloadHttpError response.statusText), ev)
        else
          let filePath := pathJoin cfg.downloadFolder cfg.outputFileName
          let ev := ev ++ [Event.wroteFile filePath]
          match env.streamError with
          | some msg => (Except.error (PipelineError.ioError msg), ev)
          | none => (Except.ok filePath, ev)

/-- The handler body after the pre-script step: run the pipeline; a thrown
error is caught at `src/server.cjs` lines 218-221 and becomes a 500 reply
with `Error: ` prepended to the message; on success the post-script is run
when configured (its failure only logged, lines 203-215) and the reply is
the 200 plain-text message of line 217. -/
def afterPreScript (cfg : Config) (env : Env) (ev0 : List Event) :
    HttpReply × List Event :=
  match runPipeline cfg env with
  | (Except.error e, ev) =>
      ({ status := 500, body := "Error: " ++ e.message }, ev0 ++ ev)
  | (Except.ok filePath, ev) =>
      let ev2 := ev0 ++ ev ++
        (if jsFalsyStr cfg.postScript then [] else [Event.ranPostScript])
      ({ status := 200, body := "Latest release asset downloaded to " ++ filePath }, ev2)

/-- The webhook route handler (`src/server.cjs` lines 121-222), entered
after `verifyGithubSignature` calls `next()`: if a pre-script is configured
it runs first, and its failure replies 500 immediately without any download
step (lines 127-138); otherwise the download pipeline runs. -/
def handleWebhook (cfg : Config) (env : Env) : HttpReply × List Event :=
  if ¬ jsFalsyStr cfg.preScript then
    if env.preScriptOk then afterPreScript cfg env [Event.ranPreScript]
    else
      ({ status := 500,
         body := "Pre-script execution failed: " ++
           runScriptFailMessage (cfg.preScript.getD "") },
       [Event.ranPreScript])
  else
    afterPreScript cfg env []

/-- Models the reply produced by the Express default error handler when a
middleware throws synchronously (as `timingSafeEqual` does on unequal
buffer lengths): an internal-server-error reply, not one of the handler's
own replies. -/
def expressInternalErrorReply : HttpReply :=
  { status := 500, body := "Internal Server Error" }

/-- One full dispatch of a POST to `/github-webhook`: the verification
middleware runs first and only `next()` reaches the route handler.  The
source keeps no busy flag or in-flight state of any kind; the
`downloadInFlight` parameter records whether a pipeline execution is
already in flight solely so that claims about concurrent requests can be
stated, and it is unused exactly because the code never consults such
state. -/
def dispatchWebhook (hmacHex : HmacAlgorithm → String → List Nat → String)
    (cfg : Config) (env : Env) (req : WebhookRequest)
    (downloadInFlight : Bool) : HttpReply × List Event :=
  match verifyGithubSignature hmacHex cfg.webhookSecret req with
  | VerifyOutcome.serverConfigError =>
      ({ status := 500, body := "Server configuration error: missing webhook secret." }, [])
  | VerifyOutcome.unauthorizedMissing =>
      ({ status := 401, body := "Unauthorized: signature missing." }, [])
  | VerifyOutcome.unauthorizedInvalid =>
      ({ status := 401, body := "Unauthorized: invalid signature." }, [])
  | VerifyOutcome.comparisonException => (expressInternalErrorReply, [])
  | VerifyOutcome.verified => handleWebhook cfg env

/-- The pre-script step does not abort the request: either none is
configured or the configured one succeeded. -/
def preScriptPasses (cfg : Config) (env : Env) : Prop :=
  jsFalsyStr cfg.preScript = true ∨ env.preScriptOk = true

/-- The hex character for a value below 16. -/
def hexDigitChar (n : Nat) : Char :=
  if n < 10 then Char.ofNat (48 + n) else Char.ofNat (87 + n)

/-- Builds a fixed-width big-endian hex character list for a value. -/
def natToHexAux : Nat → Nat → List Char → List Char
  | 0, _, acc => acc
  | w + 1, v, acc => natToHexAux w (v / 16) (hexDigitChar (v % 16) :: acc)

/-- A fixed-width hex rendering of a natural number. -/
def natToHex (width v : Nat) : String :=
  String.mk (natToHexAux width v [])

/-- The hex-digest length of each algorithm (64 for SHA-256, 40 for SHA-1). -/
def digestLength : HmacAlgorithm → Nat
  | HmacAlgorithm.sha256 => 64
  | HmacAlgorithm.sha1 => 40

/-- A seed distinguishing the two algorithm families in the test digest. -/
def digestSeed : HmacAlgorithm → Nat
  | HmacAlgorithm.sha256 => 2
  | HmacAlgorithm.sha1 => 3

/-- A concrete executable stand-in for `crypto.createHmac(alg, secret)`
applied to a body with hex output, used to instantiate witnesses; it shares
the interface and fixed output width of the real HMAC but is not a
cryptographic hash. -/
def testHmacHex (a : HmacAlgorithm) (secret : String) (body : List Nat) : String :=
  natToHex (digestLength a)
    ((secret.data.map Char.toNat ++ body).foldl
      (fun h b => (h * 131 + b + 1) % 16 ^ digestLength a) (digestSeed a))

/-- A concrete configuration used by witnesses and counterexamples. -/
def cfgA : Config :=
  { owner := "o", repo := "r", downloadFolder := "./", assetName := "b.zip",
    outputFileName := "download", webhookSecret := some "k",
    preScript := none, postScript := none }

/-- A concrete environment in which every step succeeds: a valid token, a
release with assets named a.zip and b.zip, a 200 fetch response and a clean
stream. -/
def envA : Env :=
  { installationToken := some "t",
    latestRelease := { assets := [{ name := "a.zip", id := 101 }, { name := "b.zip", id := 202 }] },
    fetchResponse := { status := 200, statusText := "OK", bodyText := "" },
    streamError := none, preScriptOk := true, postScriptOk := true }

/-- A concrete request correctly signed (under `testHmacHex`) for body
bytes `[1, 2]` with the secret of `cfgA`. -/
def reqA : WebhookRequest :=
  { rawBody := [1, 2],
    sigHeader256 := some (computedDigest testHmacHex HmacAlgorithm.sha256 "k" [1, 2]),
    sigHeader1 := none }

/-- The configuration of `cfgA` with no webhook secret configured. -/
def cfgNoSecret : Config := { cfgA with webhookSecret := none }

/-- The environment of `envA` with a failing 404 asset fetch. -/
def envNotFound : Env :=
  { envA with fetchResponse := { status := 404, statusText := "Not Found", bodyText := "missing" } }

/-- The environment of `envA` with a failing 403 asset fetch whose body
text differs from the 404 one but whose status text coincides. -/
def envForbidden : Env :=
  { envA with fetchResponse := { status := 403, statusText := "Not Found", bodyText := "denied" } }

/-- The configuration of `cfgA` with a pre-script configured. -/
def cfgPre : Config := { cfgA with preScript := some "/hooks/pre.sh" }

/-- The environment of `envA` with a failing pre-script run. -/
def envPreFail : Env := { envA with preScriptOk := false }

/-- The configuration of `cfgA` with a post-script configured. -/
def cfgPost : Config := { cfgA with postScript := some "/hooks/post.sh" }

/-- The environment of `envA` with a failing post-script run. -/
def envPostFail : Env := { envA with postScriptOk := false }

/-- The environment of `envA` whose latest release has zero assets. -/
def envNoAssets : Env := { envA with latestRelease := { assets := [] } }

/-! Helper lemmas about the verifier. -/

theorem bufFrom_eq_iff (a b : String) : bufFrom a = bufFrom b ↔ a = b :=
  ⟨fun h => String.ext h, fun h => h ▸ rfl⟩

theorem computedDigest_length (hmacHex : HmacAlgorithm → String → List Nat → String)
    (alg : HmacAlgorithm) (secret : String) (body : List Nat) :
    (computedDigest hmacHex alg secret body).length =
      (algName alg).length + 1 + (hmacHex alg secret body).length := by
  simp [computedDigest, String.length_append]
  decide

theorem computedDigest_ne_empty (hmacHex : HmacAlgorithm → String → List Nat → String)
    (alg : HmacAlgorithm) (secret : String) (body : List Nat) :
    ¬ computedDigest hmacHex alg secret body = "" := by
  intro h
  have hlen : (computedDigest hmacHex alg secret body).length = 0 := by rw [h]; rfl
  rw [computedDigest_length] at hlen
  cases alg <;> simp [algName] at hlen

theorem computedDigest_inj_body (hmacHex : HmacAlgorithm → String → List Nat → String)
    (alg : HmacAlgorithm) (secret : String) (b1 b2 : List Nat)
    (h : computedDigest hmacHex alg secret b1 = computedDigest hmacHex alg secret b2) :
    hmacHex alg secret b1 = hmacHex alg secret b2 := by
  have hd := congrArg String.data h
  rw [show computedDigest hmacHex alg secret b1 =
        (algName alg ++ "=") ++ hmacHex alg secret b1 from rfl,
      show computedDigest hmacHex alg secret b2 =
        (algName alg ++ "=") ++ hmacHex alg secret b2 from rfl,
      String.data_append, String.data_append] at hd
  exact String.ext (List.append_cancel_left hd)

/-- The full case analysis of `verifyGithubSignature` once a secret is
configured and a signature header has been selected: unequal buffer
lengths throw, equal-length unequal strings reply 401, equality verifies. -/
theorem verify_cases (hmacHex : HmacAlgorithm → String → List Nat → String)
    (secret : Option String) (req : WebhookRequest) (sig : String) (alg : HmacAlgorithm)
    (hsec : jsFalsyStr secret = false)
    (hsel : selectSignature req = (some sig, alg))
    (hsig : ¬ sig = "") :
    verifyGithubSignature hmacHex secret req =
      (if sig.length = (computedDigest hmacHex alg (secret.getD "") req.rawBody).length then
        (if sig = computedDigest hmacHex alg (secret.getD "") req.rawBody then
          VerifyOutcome.verified
        else VerifyOutcome.unauthorizedInvalid)
      else VerifyOutcome.comparisonException) := by
  have hfalsy : jsFalsyStr (some sig) = false := by
    simp [jsFalsyStr]
    exact hsig
  simp only [verifyGithubSignature, hsec, Bool.false_eq_true, if_false, hsel, hfalsy,
    Option.getD_some, timingSafeEqual, bufFrom]
  by_cases hlen : sig.length = (computedDigest hmacHex alg (secret.getD "") req.rawBody).length
  · have hlen' : sig.data.length =
        (computedDigest hmacHex alg (secret.getD "") req.rawBody).data.length := hlen
    by_cases heq : sig = computedDigest hmacHex alg (secret.getD "") req.rawBody
    · simp [hlen, hlen', heq]
    · have hne : ¬ sig.data = (computedDigest hmacHex alg (secret.getD "") req.rawBody).data := by
        intro hd
        exact heq (String.ext hd)
      simp [hlen, hlen', heq, hne]
  · have hlen' : ¬ sig.data.length =
        (computedDigest hmacHex alg (secret.getD "") req.rawBody).data.length := hlen
    simp [hlen, hlen']

/-- Claim C10: when the supplied signature header differs in length from
the computed digest string (for example a truncated or wrong-prefix
signature), the comparison in the verifier raises the
`crypto.timingSafeEqual` exception on unequal-length buffers instead of
returning the clean unauthorized reply; only an equal-length mismatch
takes the 401 branch. -/
theorem c10_unequal_length_comparison_throws
    (hmacHex : HmacAlgorithm → String → List Nat → String)
    (secret : Option String) (req : WebhookRequest) (sig : String) (alg : HmacAlgorithm)
    (hsec : jsFalsyStr secret = false)
    (hsel : selectSignature req = (some sig, alg))
    (hsig : ¬ sig = "") :
    (¬ sig.length = (computedDigest hmacHex alg (secret.getD "") req.rawBody).length →
      verifyGithubSignature hmacHex secret req = VerifyOutcome.comparisonException)
    ∧ (sig.length = (computedDigest hmacHex alg (secret.getD "") req.rawBody).length →
      ¬ sig = computedDigest hmacHex alg (secret.getD "") req.rawBody →
      verifyGithubSignature hmacHex secret req = VerifyOutcome.unauthorizedInvalid) := by
  rw [verify_cases hmacHex secret req sig alg hsec hsel hsig]
  constructor
  · intro h
    simp [h]
  · intro h1 h2
    simp [h1, h2]

/-- Witness for C10: a truncated header of wrong length hits the exception
branch; an equal-length wrong digest (the test digest of different body
bytes) takes the 401 branch. -/
theorem c10_witness :
    verifyGithubSignature testHmacHex (some "k")
      { rawBody := [1], sigHeader256 := some "sha256=abc", sigHeader1 := none } =
      VerifyOutcome.comparisonException
    ∧ verifyGithubSignature testHmacHex (some "k")
      { rawBody := [1],
        sigHeader256 := some (computedDigest testHmacHex HmacAlgorithm.sha256 "k" [2]),
        sigHeader1 := none } =
      VerifyOutcome.unauthorizedInvalid := by
  constructor
  · exact (c10_unequal_length_comparison_throws testHmacHex (some "k")
      { rawBody := [1], sigHeader256 := some "sha256=abc", sigHeader1 := none }
      "sha256=abc" HmacAlgorithm.sha256 (by decide) (by decide) (by decide)).1 (by decide)
  · exact (c10_unequal_length_comparison_throws testHmacHex (some "k")
      { rawBody := [1],
        sigHeader256 := some (computedDigest testHmacHex HmacAlgorithm.sha256 "k" [2]),
        sigHeader1 := none }
      (computedDigest testHmacHex HmacAlgorithm.sha256 "k" [2]) HmacAlgorithm.sha256
      (by decide) (by decide) (by decide)).2 (by decide) (by decide)

/-- Claim C3: the verifier computes the HMAC with SHA-256 when the strong
header is present and with SHA-1 only when it is absent, and accepts
exactly when the supplied header equals the computed
`algorithm=hex-digest` string; every correctly signed payload is accepted,
and a single-byte substitution of the body or of the signature header is
rejected with the 401 unauthorized reply.  The body-mutation part assumes
the external HMAC keeps its fixed digest length and does not collide at
the mutated body (cryptographic facts about `crypto`, not derivable in the
embedding); the header-mutation part assumes the mutation preserves the
header length, as a one-byte substitution does. -/
theorem c3_signature_verifier
    (hmacHex : HmacAlgorithm → String → List Nat → String) (sec : String)
    (hsec : ¬ sec = "") :
    (∀ (req : WebhookRequest) (sig : String),
      req.sigHeader256 = some sig → ¬ sig = "" →
      (verifyGithubSignature hmacHex (some sec) req = VerifyOutcome.verified ↔
        sig = computedDigest hmacHex HmacAlgorithm.sha256 sec req.rawBody))
    ∧ (∀ (req : WebhookRequest) (sig : String),
      jsFalsyStr req.sigHeader256 = true → req.sigHeader1 = some sig → ¬ sig = "" →
      (verifyGithubSignature hmacHex (some sec) req = VerifyOutcome.verified ↔
        sig = computedDigest hmacHex HmacAlgorithm.sha1 sec req.rawBody))
    ∧ (∀ body mutated : List Nat,
      (hmacHex HmacAlgorithm.sha256 sec mutated).length =
        (hmacHex HmacAlgorithm.sha256 sec body).length →
      ¬ hmacHex HmacAlgorithm.sha256 sec mutated = hmacHex HmacAlgorithm.sha256 sec body →
      verifyGithubSignature hmacHex (some sec)
        { rawBody := mutated,
          sigHeader256 := some (computedDigest hmacHex HmacAlgorithm.sha256 sec body),
          sigHeader1 := none } = VerifyOutcome.unauthorizedInvalid)
    ∧ (∀ (body : List Nat) (sig : String),
      sig.length = (computedDigest hmacHex HmacAlgorithm.sha256 sec body).length →
      ¬ sig = computedDigest hmacHex HmacAlgorithm.sha256 sec body →
      ¬ sig = "" →
      verifyGithubSignature hmacHex (some sec)
        { rawBody := body, sigHeader256 := some sig, sigHeader1 := none } =
        VerifyOutcome.unauthorizedInvalid) := by
  have hsecF : jsFalsyStr (some sec) = false := by
    simp [jsFalsyStr]
    exact hsec
  refine ⟨?_, ?_, ?_, ?_⟩
  · intro req sig h256 hsig
    have hsel : selectSignature req = (some sig, HmacAlgorithm.sha256) := by
      have hf : jsFalsyStr (some sig) = false := by
        simp [jsFalsyStr]
        exact hsig
      simp [selectSignature, h256, hf]
    rw [verify_cases hmacHex (some sec) req sig HmacAlgorithm.sha256 hsecF hsel hsig]
    simp only [Option.getD_some]
    constructor
    · intro h
      by_cases hl : sig.length =
          (computedDigest hmacHex HmacAlgorithm.sha256 sec req.rawBody).length
      · by_cases he : sig = computedDigest hmacHex HmacAlgorithm.sha256 sec req.rawBody
        · exact he
        · simp [hl, he] at h
      · simp [hl] at h
    · intro h
      simp [h]
  · intro req sig h256 h1 hsig
    have hsel : selectSignature req = (some sig, HmacAlgorithm.sha1) := by
      simp [selectSignature, h256, h1]
    rw [verify_cases hmacHex (some sec) req sig HmacAlgorithm.sha1 hsecF hsel hsig]
    simp only [Option.getD_some]
    constructor
    · intro h
      by_cases hl : sig.length =
          (computedDigest hmacHex HmacAlgorithm.sha1 sec req.rawBody).length
      · by_cases he : sig = computedDigest hmacHex HmacAlgorithm.sha1 sec req.rawBody
        · exact he
        · simp [hl, he] at h
      · simp [hl] at h
    · intro h
      simp [h]
  · intro body mutated hlen hne
    have hsig : ¬ computedDigest hmacHex HmacAlgorithm.sha256 sec body = "" :=
      computedDigest_ne_empty hmacHex HmacAlgorithm.sha256 sec body
    have hsel : selectSignature
        { rawBody := mutated,
          sigHeader256 := some (computedDigest hmacHex HmacAlgorithm.sha256 sec body),
          sigHeader1 := none } =
        (some (computedDigest hmacHex HmacAlgorithm.sha256 sec body), HmacAlgorithm.sha256) := by
      have : jsFalsyStr (some (computedDigest hmacHex HmacAlgorithm.sha256 sec body)) = false := by
        simp [jsFalsyStr]
        exact hsig
      simp [selectSignature, this]
    rw [verify_cases hmacHex (some sec) _ _ HmacAlgorithm.sha256 hsecF hsel hsig]
    simp only [Option.getD_some]
    have hl : (computedDigest hmacHex HmacAlgorithm.sha256 sec body).length =
        (computedDigest hmacHex HmacAlgorithm.sha256 sec mutated).length := by
      rw [computedDigest_length, computedDigest_length, hlen]
    have he : ¬ computedDigest hmacHex HmacAlgorithm.sha256 sec body =
        computedDigest hmacHex HmacAlgorithm.sha256 sec mutated := by
      intro h
      exact hne (computedDigest_inj_body hmacHex HmacAlgorithm.sha256 sec mutated body h.symm)
    simp [hl, he]
  · intro body sig hlen hne hsig
    have hsel : selectSignature
        { rawBody := body, sigHeader256 := some sig, sigHeader1 := none } =
        (some sig, HmacAlgorithm.sha256) := by
      have : jsFalsyStr (some sig) = false := by
        simp [jsFalsyStr]
        exact hsig
      simp [selectSignature, this]
    rw [verify_cases hmacHex (some sec) _ _ HmacAlgorithm.sha256 hsecF hsel hsig]
    simp only [Option.getD_some]
    simp [hlen, hne]

/-- Witness for C3: under the test digest with secret k, the correctly
signed strong-header and legacy-header requests verify, while a one-byte
body change and an equal-length wrong header are both rejected with the
401 branch. -/
theorem c3_witness :
    verifyGithubSignature testHmacHex (some "k")
      { rawBody := [1, 2],
        sigHeader256 := some (computedDigest testHmacHex HmacAlgorithm.sha256 "k" [1, 2]),
        sigHeader1 := none } = VerifyOutcome.verified
    ∧ verifyGithubSignature testHmacHex (some "k")
      { rawBody := [1, 2], sigHeader256 := none,
        sigHeader1 := some (computedDigest testHmacHex HmacAlgorithm.sha1 "k" [1, 2]) } =
      VerifyOutcome.verified
    ∧ verifyGithubSignature testHmacHex (some "k")
      { rawBody := [1, 3],
        sigHeader256 := some (computedDigest testHmacHex HmacAlgorithm.sha256 "k" [1, 2]),
        sigHeader1 := none } = VerifyOutcome.unauthorizedInvalid
    ∧ verifyGithubSignature testHmacHex (some "k")
      { rawBody := [1, 2],
        sigHeader256 := some (computedDigest testHmacHex HmacAlgorithm.sha256 "k" [9, 9]),
        sigHeader1 := none } = VerifyOutcome.unauthorizedInvalid := by
  refine ⟨?_, ?_, ?_, ?_⟩
  · exact ((c3_signature_verifier testHmacHex "k" (by decide)).1 _
      (computedDigest testHmacHex HmacAlgorithm.sha256 "k" [1, 2]) rfl (by decide)).mpr rfl
  · exact ((c3_signature_verifier testHmacHex "k" (by decide)).2.1
      { rawBody := [1, 2], sigHeader256 := none,
        sigHeader1 := some (computedDigest testHmacHex HmacAlgorithm.sha1 "k" [1, 2]) }
      (computedDigest testHmacHex HmacAlgorithm.sha1 "k" [1, 2]) rfl rfl (by decide)).mpr rfl
  · exact (c3_signature_verifier testHmacHex "k" (by decide)).2.2.1 [1, 2] [1, 3]
      (by decide) (by decide)
  · exact (c3_signature_verifier testHmacHex "k" (by decide)).2.2.2 [1, 2]
      (computedDigest testHmacHex HmacAlgorithm.sha256 "k" [9, 9]) (by decide) (by decide) (by decide)

/-! Helper lemmas about the handler. -/

theorem afterPreScript_status (cfg : Config) (env : Env) (ev0 : List Event) :
    (afterPreScript cfg env ev0).1.status = 200 ∨ (afterPreScript cfg env ev0).1.status = 500 := by
  rcases hr : runPipeline cfg env with ⟨r, ev⟩
  cases r with
  | error e => simp [afterPreScript, hr]
  | ok fp => simp [afterPreScript, hr]

theorem handleWebhook_status (cfg : Config) (env : Env) :
    (handleWebhook cfg env).1.status = 200 ∨ (handleWebhook cfg env).1.status = 500 := by
  unfold handleWebhook
  split
  · split
    · exact afterPreScript_status cfg env [Event.ranPreScript]
    · right
      rfl
  · exact afterPreScript_status cfg env []

theorem afterPreScript_of_ok (cfg : Config) (env : Env) (ev0 : List Event) (fp : String)
    (h : (runPipeline cfg env).1 = Except.ok fp) :
    afterPreScript cfg env ev0 =
      ({ status := 200, body := "Latest release asset downloaded to " ++ fp },
        ev0 ++ (runPipeline cfg env).2 ++
          (if jsFalsyStr cfg.postScript then [] else [Event.ranPostScript])) := by
  rcases hr : runPipeline cfg env with ⟨r, ev⟩
  rw [hr] at h
  simp only [Prod.fst] at h
  subst h
  simp [afterPreScript, hr]

theorem handleWebhook_of_ok (cfg : Config) (env : Env) (fp : String)
    (hpre : preScriptPasses cfg env)
    (h : (runPipeline cfg env).1 = Except.ok fp) :
    handleWebhook cfg env =
      ({ status := 200, body := "Latest release asset downloaded to " ++ fp },
        (if jsFalsyStr cfg.preScript then [] else [Event.ranPreScript]) ++
          (runPipeline cfg env).2 ++
          (if jsFalsyStr cfg.postScript then [] else [Event.ranPostScript])) := by
  unfold handleWebhook
  rcases hpre with hp | hp
  · simp [hp, afterPreScript_of_ok cfg env [] fp h]
  · by_cases hq : jsFalsyStr cfg.preScript = true
    · simp [hq, afterPreScript_of_ok cfg env [] fp h]
    · simp [hq, hp, afterPreScript_of_ok cfg env [Event.ranPreScript] fp h]

/-- Claim C1 (amended): the source keeps no busy flag or single-flight
guard: the reply and side effects of a webhook dispatch are independent of
whether a download pipeline execution is already in flight, a request
arriving during an in-flight execution starts the pipeline exactly as any
other request does, and no reply ever has the 429 busy status (replies are
200, 401 or 500). -/
theorem c1_no_busy_guard (hmacHex : HmacAlgorithm → String → List Nat → String)
    (cfg : Config) (env : Env) (req : WebhookRequest) (downloadInFlight : Bool) :
    dispatchWebhook hmacHex cfg env req downloadInFlight =
      dispatchWebhook hmacHex cfg env req false
    ∧ ¬ (dispatchWebhook hmacHex cfg env req downloadInFlight).1.status = 429 := by
  constructor
  · rfl
  · cases hv : verifyGithubSignature hmacHex cfg.webhookSecret req with
    | serverConfigError => simp [dispatchWebhook, hv]
    | unauthorizedMissing => simp [dispatchWebhook, hv]
    | unauthorizedInvalid => simp [dispatchWebhook, hv]
    | comparisonException => simp [dispatchWebhook, hv, expressInternalErrorReply]
    | verified =>
      simp only [dispatchWebhook, hv]
      rcases handleWebhook_status cfg env with h | h <;> omega

/-- Counterexample to C1 as stated: a correctly signed request dispatched
while a download is already in flight is not answered with a busy
rejection; it gets the 200 success reply and a full second pipeline
execution (download-step side effects occur). -/
theorem c1_counterexample :
    (dispatchWebhook testHmacHex cfgA envA reqA true).1.status = 200
    ∧ ((dispatchWebhook testHmacHex cfgA envA reqA true).2.any
        fun e => e.isDownloadStep) = true := by
  decide

/-- Claim C2 (amended): when no webhook secret is configured, verification
is not skipped: the middleware rejects every request with the 500
server-configuration-error reply and the download pipeline never runs. -/
theorem c2_missing_secret_rejects (hmacHex : HmacAlgorithm → String → List Nat → String)
    (cfg : Config) (env : Env) (req : WebhookRequest)
    (h : jsFalsyStr cfg.webhookSecret = true) :
    dispatchWebhook hmacHex cfg env req false =
      ({ status := 500, body := "Server configuration error: missing webhook secret." }, []) := by
  have hv : verifyGithubSignature hmacHex cfg.webhookSecret req =
      VerifyOutcome.serverConfigError := by
    unfold verifyGithubSignature
    simp [h]
  simp [dispatchWebhook, hv]

/-- Witness for the amended C2 at a concrete unconfigured-secret setup. -/
theorem c2_witness :
    dispatchWebhook testHmacHex cfgNoSecret envA reqA false =
      ({ status := 500, body := "Server configuration error: missing webhook secret." }, []) :=
  c2_missing_secret_rejects testHmacHex cfgNoSecret envA reqA (by decide)

/-- Counterexample to C2 as stated: with no secret configured, a request
does not proceed to the download pipeline (no side effect occurs) and the
reply is the 500 configuration error, not a pass-through. -/
theorem c2_counterexample :
    (dispatchWebhook testHmacHex cfgNoSecret envA reqA false).1.status = 500
    ∧ (dispatchWebhook testHmacHex cfgNoSecret envA reqA false).2 = [] := by
  decide

/-- Claim C4 (amended): on every successful pipeline execution the reply is
the 200 plain-text message naming the output file path; the body is not a
JSON object, carries no status field, no asset name and no byte count (the
code never tracks bytes written). -/
theorem c4_success_reply (cfg : Config) (env : Env) (fp : String)
    (hpre : preScriptPasses cfg env)
    (hok : (runPipeline cfg env).1 = Except.ok fp) :
    (handleWebhook cfg env).1 =
      { status := 200, body := "Latest release asset downloaded to " ++ fp } := by
  rw [handleWebhook_of_ok cfg env fp hpre hok]

/-- Witness for the amended C4 at the all-success setup. -/
theorem c4_witness :
    (handleWebhook cfgA envA).1 =
      { status := 200, body := "Latest release asset downloaded to " ++ "./download" } :=
  c4_success_reply cfgA envA "./download" (Or.inr rfl) rfl

/-- Counterexample to C4 as stated: the success reply body is the plain
sentence naming the file path; it contains no left-brace character (so it
is not the text of a JSON object with a status field) and no digit (so it
reports no byte count). -/
theorem c4_counterexample :
    (handleWebhook cfgA envA).1 =
      { status := 200, body := "Latest release asset downloaded to ./download" }
    ∧ (Char.ofNat 123) ∉ "Latest release asset downloaded to ./download".data
    ∧ ("Latest release asset downloaded to ./download".data.all
        fun c => !c.isDigit) = true := by
  decide

/-- Claim C5 (amended): when the asset-download response status is not
successful, the pipeline fails with the download error whose message
carries the response statusText (the numeric status code and the body text
are logged but not carried on the thrown error), and no file write occurs
for that request. -/
theorem c5_download_http_error (cfg : Config) (env : Env) (asset : Asset)
    (htok : jsFalsyStr env.installationToken = false)
    (hassets : 0 < env.latestRelease.assets.length)
    (hfind : env.latestRelease.assets.find? (fun a => a.name == cfg.assetName) = some asset)
    (hnotOk : env.fetchResponse.ok = false) :
    (runPipeline cfg env).1 =
      Except.error (PipelineError.downloadHttpError env.fetchResponse.statusText)
    ∧ ((runPipeline cfg env).2.all fun e => !e.isFileWrite) = true := by
  unfold runPipeline
  simp [htok, hassets, hfind, hnotOk, Event.isFileWrite]

/-- Witness for the amended C5 at the 404 fetch setup. -/
theorem c5_witness :
    (runPipeline cfgA envNotFound).1 =
      Except.error (PipelineError.downloadHttpError envNotFound.fetchResponse.statusText)
    ∧ ((runPipeline cfgA envNotFound).2.all fun e => !e.isFileWrite) = true :=
  c5_download_http_error cfgA envNotFound { name := "b.zip", id := 202 }
    (by decide) (by decide) (by decide) (by decide)

/-- Counterexample to C5 as stated: a 404 fetch with one body text and a
403 fetch with another body text (same statusText) produce identical
pipeline outcomes, so the error cannot carry the numeric status code or
the response body text. -/
theorem c5_counterexample :
    runPipeline cfgA envNotFound = runPipeline cfgA envForbidden
    ∧ (runPipeline cfgA envNotFound).1 =
        Except.error (PipelineError.downloadHttpError "Not Found")
    ∧ ¬ envNotFound.fetchResponse.status = envForbidden.fetchResponse.status
    ∧ ¬ envNotFound.fetchResponse.bodyText = envForbidden.fetchResponse.bodyText := by
  refine ⟨rfl, rfl, by decide, by decide⟩

/-- Claim C6: for a non-empty asset list the pipeline selects the asset
whose name equals the configured target exactly (the selected asset's name
is the target, selection being a strict-equality find) and issues the
download request at the URL built from that asset's id; when no name
matches exactly, the pipeline fails with the asset-not-found error. -/
theorem c6_asset_selection (cfg : Config) (env : Env)
    (htok : jsFalsyStr env.installationToken = false)
    (hassets : 0 < env.latestRelease.assets.length) :
    (∀ asset : Asset,
      env.latestRelease.assets.find? (fun a => a.name == cfg.assetName) = some asset →
      asset.name = cfg.assetName
      ∧ Event.fetchedAsset (assetApiUrl cfg.owner cfg.repo asset.id) ∈ (runPipeline cfg env).2)
    ∧ (env.latestRelease.assets.find? (fun a => a.name == cfg.assetName) = none →
      (runPipeline cfg env).1 = Except.error (PipelineError.assetNotFoundError cfg.assetName)) := by
  constructor
  · intro asset hfind
    constructor
    · have hp := List.find?_some hfind
      exact eq_of_beq hp
    · unfold runPipeline
      simp only [htok, Bool.false_eq_true, if_false, hfind]
      by_cases hok : env.fetchResponse.ok = true
      · cases hse : env.streamError with
        | some m => simp [hassets, hok, hse]
        | none => simp [hassets, hok, hse]
      · simp [hassets, hok]
  · intro hfind
    unfold runPipeline
    simp [htok, hassets, hfind]

/-- Witness for C6 at the release with assets a.zip and b.zip and target
b.zip: the selected asset is b.zip and the download URL is built from its
id 202. -/
theorem c6_witness :
    (Asset.mk "b.zip" 202).name = cfgA.assetName
    ∧ Event.fetchedAsset (assetApiUrl cfgA.owner cfgA.repo 202) ∈ (runPipeline cfgA envA).2 :=
  (c6_asset_selection cfgA envA (by decide) (by decide)).1
    (Asset.mk "b.zip" 202) (by decide)

/-- Claim C7: when the latest release has zero attached assets, the
pipeline fails with the release-not-found error and no asset-download
request (and no file write) ever occurs. -/
theorem c7_zero_assets (cfg : Config) (env : Env)
    (htok : jsFalsyStr env.installationToken = false)
    (hempty : env.latestRelease.assets = []) :
    (runPipeline cfg env).1 = Except.error PipelineError.releaseNotFoundError
    ∧ ((runPipeline cfg env).2.all fun e => !(e.isAssetFetch || e.isFileWrite)) = true := by
  unfold runPipeline
  simp [htok, hempty, Event.isAssetFetch, Event.isFileWrite]

/-- Witness for C7 at the zero-asset release setup. -/
theorem c7_witness :
    (runPipeline cfgA envNoAssets).1 = Except.error PipelineError.releaseNotFoundError
    ∧ ((runPipeline cfgA envNoAssets).2.all fun e => !(e.isAssetFetch || e.isFileWrite)) = true :=
  c7_zero_assets cfgA envNoAssets (by decide) (by decide)

/-- Claim C8: when a pre-script is configured and its run fails (non-zero
exit or execution fault, both rejected by `runScript`), the handler replies
with the 500 pre-script-failure error and none of the download steps
(token acquisition, release lookup, asset fetch, file write) is invoked. -/
theorem c8_pre_script_failure (cfg : Config) (env : Env)
    (hpre : jsFalsyStr cfg.preScript = false)
    (hfail : env.preScriptOk = false) :
    (handleWebhook cfg env).1 =
      { status := 500,
        body := "Pre-script execution failed: " ++ runScriptFailMessage (cfg.preScript.getD "") }
    ∧ ((handleWebhook cfg env).2.all fun e => !e.isDownloadStep) = true := by
  unfold handleWebhook
  simp [hpre, hfail, Event.isDownloadStep]

/-- Witness for C8 at the failing-pre-script setup. -/
theorem c8_witness :
    (handleWebhook cfgPre envPreFail).1 =
      { status := 500,
        body := "Pre-script execution failed: " ++
          runScriptFailMessage (cfgPre.preScript.getD "") }
    ∧ ((handleWebhook cfgPre envPreFail).2.all fun e => !e.isDownloadStep) = true :=
  c8_pre_script_failure cfgPre envPreFail (by decide) (by decide)

/-- Claim C9: when the pipeline succeeds and a configured post-script run
fails, the failure does not change the already-successful reply: the
handler still returns the 200 success reply (and the post-script was
invoked). -/
theorem c9_post_script_failure (cfg : Config) (env : Env) (fp : String)
    (hpre : preScriptPasses cfg env)
    (hok : (runPipeline cfg env).1 = Except.ok fp)
    (hpost : jsFalsyStr cfg.postScript = false)
    (hfail : env.postScriptOk = false) :
    (handleWebhook cfg env).1 =
      { status := 200, body := "Latest release asset downloaded to " ++ fp }
    ∧ Event.ranPostScript ∈ (handleWebhook cfg env).2 := by
  rw [handleWebhook_of_ok cfg env fp hpre hok]
  simp [hpost]

/-- Witness for C9 at the failing-post-script setup. -/
theorem c9_witness :
    (handleWebhook cfgPost envPostFail).1 =
      { status := 200, body := "Latest release asset downloaded to " ++ "./download" }
    ∧ Event.ranPostScript ∈ (handleWebhook cfgPost envPostFail).2 :=
  c9_post_script_failure cfgPost envPostFail "./download"
    (Or.inr rfl) rfl (by decide) (by decide)

end NewReleaseDownloader
